import Mathlib

/-!
Shallow embedding of the PulseAudio access-control broker modules
(src/src/modules/module-access.c and src/src/modules/module-flatpak.c).

The two modules share their decision-engine code: `rule_check_owner`,
`rule_allow`, `rule_block`, `check_access`, `filter_event`, `add_event`,
`find_event`, `remove_event` and the `event_hook` table are textually
identical in both files (module-flatpak additionally has the portal
arbiter, the sandbox detector and a richer client_data). We embed the
richer module-flatpak versions once; module-access specific data (its
default policy built in its pa__init) gets its own definition.

Machine integers: `uint32_t` values (client and object indices, policy
handles, pids, response codes) are modelled as `Nat`; the only place where
the concrete machine value matters is `PA_INVALID_INDEX`, the all-ones
32-bit word, which we fix to 2^32 - 1. No arithmetic in the modelled code
can overflow.
-/

/-- Result values of a PulseAudio hook callback (`pa_hook_result_t`):
PA_HOOK_OK, PA_HOOK_STOP, PA_HOOK_CANCEL. -/
inductive PaHookResult
  | ok
  | stop
  | cancel
deriving DecidableEq, Repr

/-- The access hooks (`pa_access_hook_t`) referenced by the two modules.
The numeric values of the C enumeration never matter to the modelled
code, which only compares hook ids for equality and indexes dense tables
by them, so the enumeration is embedded as an inductive type. -/
inductive PaAccessHook
  | get_sink_info
  | get_source_info
  | get_server_info
  | get_module_info
  | get_card_info
  | stat
  | get_sample_info
  | play_sample
  | connect_playback
  | connect_record
  | get_client_info
  | kill_client
  | get_sink_input_info
  | move_sink_input
  | set_sink_input_volume
  | set_sink_input_mute
  | kill_sink_input
  | get_source_output_info
  | move_source_output
  | set_source_output_volume
  | set_source_output_mute
  | kill_source_output
  | filter_subscribe_event
deriving DecidableEq, Repr

/-- Subscription-event facilities (`PA_SUBSCRIPTION_EVENT_*` facility
codes, the value of `event & PA_SUBSCRIPTION_EVENT_FACILITY_MASK`).
`other` stands for any masked facility value with no entry in the
`event_hook` table (array slots left at 0 by the C designated
initializer, which the code treats as a nil hook). -/
inductive Facility
  | sink
  | source
  | sink_input
  | source_output
  | module
  | client
  | sample_cache
  | server
  | card
  | other
deriving DecidableEq, Repr

/-- Subscription-event type (the value of
`event & PA_SUBSCRIPTION_EVENT_TYPE_MASK`): NEW, CHANGE, REMOVE, and
`other` for any remaining masked value (hits the switch default). -/
inductive PaEventType
  | new
  | change
  | remove
  | other
deriving DecidableEq, Repr

/-- The two masked fields of the packed `event` word that `filter_event`
extracts (`d->event & FACILITY_MASK` and `d->event & TYPE_MASK`). -/
structure EvWord where
  facility : Facility
  etype : PaEventType
deriving DecidableEq, Repr

/-- PA_INVALID_INDEX is ((uint32_t) -1). -/
def PA_INVALID_INDEX : Nat := 2 ^ 32 - 1

/-- The fields of `pa_access_data` the modelled code reads or writes:
the acting client index, the target object index, the hook id, and the
packed event word (only meaningful for the subscribe-event hook). The
`async_finish_cb` continuation is represented by the record itself: an
invocation of the continuation is modelled as the pair (data, granted)
emitted by the portal functions. -/
structure AccessData where
  client_index : Nat
  object_index : Nat
  hook : PaAccessHook
  event : EvWord
deriving DecidableEq, Repr

/-- One slot of the per-client async decision cache (`struct async_cache`). -/
structure AsyncCache where
  checked : Bool
  granted : Bool
deriving DecidableEq, Repr

/-- Per-client state of module-flatpak (`struct client_data`): client
index, policy handle, trusted pid, the per-hook async cache, the pending
async request (`access_data`, NULL when no arbitration has been started)
and the seen-object list (`events`, a linked list of
(facility, object_index) items; list order models the link order, with
`add_event` prepending). The `time_event` timer is not modelled: no claim
refers to the timeout path. -/
structure ClientData where
  index : Nat
  policy : Nat
  pid : Nat
  cached : PaAccessHook → AsyncCache
  access_data : Option AccessData
  events : List (Facility × Nat)

/-- client_data_new: pa_xnew0 zero-fills, so every cache slot starts
(checked = false, granted = false), access_data starts NULL and the
event list starts empty. -/
def client_data_new (index policy pid : Nat) : ClientData :=
  { index := index
    policy := policy
    pid := pid
    cached := fun _ => ⟨false, false⟩
    access_data := none
    events := [] }

/-- add_event: allocate an item with the given facility and object index
and PA_LLIST_PREPEND it to cd->events. -/
def add_event (cd : ClientData) (facility : Facility) (oidx : Nat) : ClientData :=
  { cd with events := (facility, oidx) :: cd.events }

/-- The loop of find_event over the event list: return the first item
matching the facility and object index (as a Bool: whether the C
function returns non-NULL). -/
def find_event_list : List (Facility × Nat) → Facility → Nat → Bool
  | [], _, _ => false
  | x :: xs, f, oidx =>
    if x.1 = f ∧ x.2 = oidx then true else find_event_list xs f oidx

/-- find_event on a client entry. -/
def find_event (cd : ClientData) (facility : Facility) (oidx : Nat) : Bool :=
  find_event_list cd.events facility oidx

/-- The list mutation of remove_event: unlink the first item matching
the pair, returning none when no item matches. -/
def remove_event_list : List (Facility × Nat) → Facility → Nat → Option (List (Facility × Nat))
  | [], _, _ => none
  | x :: xs, f, oidx =>
    if x.1 = f ∧ x.2 = oidx then some xs
    else match remove_event_list xs f oidx with
      | some ys => some (x :: ys)
      | none => none

/-- remove_event: find the first matching item, unlink and free it,
return whether one was found, together with the updated entry. -/
def remove_event (cd : ClientData) (facility : Facility) (oidx : Nat) : Bool × ClientData :=
  match remove_event_list cd.events facility oidx with
  | some ys => (true, { cd with events := ys })
  | none => (false, cd)

/-- The constant `event_hook` table mapping a subscription facility to
the get-info access hook used for the visibility check. Facilities
without a designated entry are left at 0 by the C initializer, which
`filter_event` tests with `if (data.hook && ...)`; those are modelled
as `none`. -/
def event_hook : Facility → Option PaAccessHook
  | .sink => some .get_sink_info
  | .source => some .get_source_info
  | .sink_input => some .get_sink_input_info
  | .source_output => some .get_source_output_info
  | .module => some .get_module_info
  | .client => some .get_client_info
  | .sample_cache => some .get_sample_info
  | .server => some .get_server_info
  | .card => some .get_card_info
  | .other => none

/-- filter_event, for a known client entry, parametrised by the result
of the inner `pa_hook_fire(&c->access[data.hook], &data)` (the decision
engine; in the installed module the callback connected on every
non-subscribe hook is check_access). Returns the hook result and the
updated client entry. The unknown-client guard at the top of the C
function lives in `filter_event_top` below. -/
def filter_event (fire : PaAccessHook → AccessData → PaHookResult)
    (d : AccessData) (cd : ClientData) : PaHookResult × ClientData :=
  let facility := d.event.facility
  match d.event.etype with
  | .remove =>
    match remove_event cd facility d.object_index with
    | (true, cd2) => (.ok, cd2)
    | (false, _) => (.stop, cd)
  | .change =>
    if find_event cd facility d.object_index then (.ok, cd)
    else
      match event_hook facility with
      | none => (.stop, cd)
      | some h =>
        if fire h { d with hook := h } = .ok then
          (.ok, add_event cd facility d.object_index)
        else (.stop, cd)
  | .new =>
    match event_hook facility with
    | none => (.stop, cd)
    | some h =>
      if fire h { d with hook := h } = .ok then
        (.ok, add_event cd facility d.object_index)
      else (.stop, cd)
  | .other => (.stop, cd)

example :
    filter_event (fun _ _ => .ok)
      ⟨5, 2, .filter_subscribe_event, ⟨.sink, .new⟩⟩
      (client_data_new 5 0 100)
      = (.ok, { client_data_new 5 0 100 with events := [(.sink, 2)] }) := rfl

/-- The rule vocabulary: the four rule functions installed in policy
slots by the two modules (access_rule_t function pointers, as a tagged
variant). Constructed policies never leave a slot NULL (access_policy_new
fills every slot), so no nil constructor is needed; the nil-slot guard
of check_access is therefore vacuous on the states we consider. -/
inductive Rule
  | allow
  | block
  | check_owner
  | check_portal
deriving DecidableEq, Repr

/-- A policy rule table (`access_policy.rule`, a dense array indexed by
hook id). -/
def Policy := PaAccessHook → Rule

/-- access_policy_new: fill all slots with rule_allow or rule_block
according to the allow_all flag. -/
def access_policy_new (allow_all : Bool) : Policy :=
  fun _ => if allow_all then .allow else .block

/-- The slice of pa_core the modelled rules read: the sink_input and
source_output registries, each mapping an object index to the optional
`client` backreference of the stream (`none` value = the stream exists
but si->client is NULL; absent key = no stream with that index). -/
structure Core where
  sink_inputs : List (Nat × Option Nat)
  source_outputs : List (Nat × Option Nat)

/-- The `idx` computed by rule_check_owner: the owning client of the
target object, PA_INVALID_INDEX when nobody owns it (initial value, kept
for every hook outside the client / sink-input / source-output groups
and for absent or client-less streams). -/
def owner_idx (c : Core) (d : AccessData) : Nat :=
  match d.hook with
  | .get_client_info | .kill_client => d.object_index
  | .get_sink_input_info | .move_sink_input | .set_sink_input_volume
  | .set_sink_input_mute | .kill_sink_input =>
    match c.sink_inputs.lookup d.object_index with
    | some (some ci) => ci
    | some none => PA_INVALID_INDEX
    | none => PA_INVALID_INDEX
  | .get_source_output_info | .move_source_output | .set_source_output_volume
  | .set_source_output_mute | .kill_source_output =>
    match c.source_outputs.lookup d.object_index with
    | some (some ci) => ci
    | some none => PA_INVALID_INDEX
    | none => PA_INVALID_INDEX
  | _ => PA_INVALID_INDEX

/-- rule_check_owner: OK iff the computed owner index equals the acting
client index, STOP otherwise. -/
def rule_check_owner (c : Core) (d : AccessData) : PaHookResult :=
  if owner_idx c d = d.client_index then .ok else .stop

/-- rule_allow always returns OK (it only logs). -/
def rule_allow (_ : AccessData) : PaHookResult := .ok

/-- rule_block always returns STOP (it only logs). -/
def rule_block (_ : AccessData) : PaHookResult := .stop

/-- Success or failure of each fallible dbus step taken by
rule_check_portal, in source order: message allocation
(dbus_message_new_method_call), argument append
(dbus_message_append_args), the blocking send
(dbus_connection_send_with_reply_and_block), the parse of the reply
handle (dbus_message_get_args on the reply) and the Response-signal
match subscription (dbus_bus_add_match). -/
structure PortalEnv where
  new_call_ok : Bool
  append_ok : Bool
  send_ok : Bool
  reply_parse_ok : Bool
  subscribe_ok : Bool
deriving DecidableEq, Repr

/-- The all-steps-succeed bus environment. -/
def portalEnvOk : PortalEnv := ⟨true, true, true, true, true⟩

/-- An AccessDevice method call that actually went out on the bus: its
two hook-dependent arguments (the trusted pid and the single device
tag). -/
structure PortalCall where
  pid : Nat
  device : String
deriving DecidableEq, Repr

/-- The device tag chosen by rule_check_portal from the hook:
CONNECT_RECORD asks for "microphone", CONNECT_PLAYBACK and PLAY_SAMPLE
for "speakers"; any other hook hits pa_assert_not_reached (`none`). -/
def deviceFor : PaAccessHook → Option String
  | .connect_record => some "microphone"
  | .connect_playback | .play_sample => some "speakers"
  | _ => none

/-- Outcome of one rule_check_portal invocation: the hook result, the
updated client entry, the AccessDevice calls that reached the portal
during the invocation, and the number of portal_response dbus filters
registered; or an assertion failure (pa_assert_not_reached). -/
inductive RCPOutcome
  | result (res : PaHookResult) (cd : ClientData) (calls : List PortalCall) (filters_added : Nat)
  | assertion

/-- The hook result of an RCPOutcome, none on assertion failure. -/
def RCPOutcome.resOf : RCPOutcome → Option PaHookResult
  | .result r _ _ _ => some r
  | .assertion => none

/-- The updated client entry of an RCPOutcome. -/
def RCPOutcome.cdOf : RCPOutcome → Option ClientData
  | .result _ cd _ _ => some cd
  | .assertion => none

/-- The issued AccessDevice calls of an RCPOutcome. -/
def RCPOutcome.callsOf : RCPOutcome → Option (List PortalCall)
  | .result _ _ calls _ => some calls
  | .assertion => none

/-- rule_check_portal (module-flatpak). Follows the C control flow:
cache hit returns synchronously with no bus traffic; on a miss the
pending context cd->access_data is saved first, then the AccessDevice
message is built, the device tag derived (assertion for any hook other
than the three portal hooks), the call sent and its reply parsed, the
Response signal match added and the portal_response filter registered,
finally CANCEL is returned. Every failing step returns STOP, with the
pending context already overwritten. A call is recorded once the
blocking send succeeds. -/
def rule_check_portal (env : PortalEnv) (d : AccessData) (cd : ClientData) : RCPOutcome :=
  if (cd.cached d.hook).checked then
    .result (if (cd.cached d.hook).granted then .ok else .stop) cd [] 0
  else
    let cd1 : ClientData := { cd with access_data := some d }
    if env.new_call_ok = false then .result .stop cd1 [] 0
    else
      match deviceFor d.hook with
      | none => .assertion
      | some dev =>
        if env.append_ok = false then .result .stop cd1 [] 0
        else if env.send_ok = false then .result .stop cd1 [] 0
        else if env.reply_parse_ok = false then .result .stop cd1 [⟨cd.pid, dev⟩] 0
        else if env.subscribe_ok = false then .result .stop cd1 [⟨cd.pid, dev⟩] 0
        else .result .cancel cd1 [⟨cd.pid, dev⟩] 1

/-- The fields of an incoming dbus message that portal_response reads:
whether dbus_message_is_signal matches interface
org.freedesktop.portal.Request member Response, and the first UINT32
argument when dbus_message_get_args succeeds (`none` = parse failure,
which leaves the local `response` variable at its initial value 2). -/
structure DBusMsg where
  is_response_signal : Bool
  response_arg : Option Nat
deriving DecidableEq, Repr

/-- Outcome of the portal_response dbus filter: HANDLED with the updated
client entry, the async_finish_cb invocation (pending request, granted)
and the number of filters removed, or NOT_YET_HANDLED with nothing
touched. -/
inductive PROutcome
  | handled (cd : ClientData) (finish : AccessData × Bool) (filters_removed : Nat)
  | not_yet_handled

/-- portal_response: on a matching Response signal, remove the filter,
parse the first UINT32 argument into `response` (initialised to 2, left
at 2 on parse failure), set the cache slot of the pending request to
(checked, granted = (response == 0)) and invoke async_finish_cb with
that granted value. The C function dereferences cd->access_data with no
NULL check; a matching signal with no pending request is therefore a
crash, modelled as `none`. -/
def portal_response (msg : DBusMsg) (cd : ClientData) : Option PROutcome :=
  if msg.is_response_signal then
    match cd.access_data with
    | none => none
    | some d =>
      let response : Nat := match msg.response_arg with
        | some v => v
        | none => 2
      let granted : Bool := response = 0
      let cd2 : ClientData :=
        { cd with cached := fun h =>
            if h = d.hook then ⟨true, granted⟩ else cd.cached h }
      some (.handled cd2 (d, granted) 1)
  else some .not_yet_handled

/-- The broker state of module-flatpak held in `struct userdata` that
the modelled functions touch: the policy idxset (handle to rule table),
the two built-in policy handles, the client hashmap (client index to
entry) and, standing for the dbus connection, the set of currently
registered portal_response filters, recorded by the client index whose
entry was passed as user_data. -/
structure Userdata where
  policies : List (Nat × Policy)
  default_policy : Nat
  portal_policy : Nat
  clients : List (Nat × ClientData)
  filters : List Nat

/-- pa_hashmap_put with an existing key replaces the entry. -/
def put_client (clients : List (Nat × ClientData)) (i : Nat) (cd : ClientData) :
    List (Nat × ClientData) :=
  clients.map fun kv => if kv.1 = i then (i, cd) else kv

/-- client_data_get: pa_hashmap_get on u->clients. -/
def client_data_get (u : Userdata) (index : Nat) : Option ClientData :=
  u.clients.lookup index

/-- Outcome of a check_access invocation: the hook result with the
updated broker state, or a crash (NULL policy dereference, which C would
hit when the client entry names a dead policy handle, or an assertion
inside rule_check_portal). Both crash paths are unreachable for states
built by pa__init and the lifecycle callbacks. -/
inductive CheckOutcome
  | res (r : PaHookResult) (u : Userdata)
  | crash

/-- The hook result of a CheckOutcome. -/
def CheckOutcome.resOf : CheckOutcome → Option PaHookResult
  | .res r _ => some r
  | .crash => none

/-- The state of a CheckOutcome. -/
def CheckOutcome.stateOf : CheckOutcome → Option Userdata
  | .res _ u => some u
  | .crash => none

/-- check_access: look up the client entry (missing entry returns STOP),
dereference its policy, fetch the rule slot for the hook and apply it.
The dispatch through the access_rule_t function pointer is a match on
the Rule variant; the mutating rule (rule_check_portal) has its client
entry written back into the hashmap and its filter registrations
appended, which models the in-place mutation of the heap entry the C
rule performs. -/
def check_access (c : Core) (env : PortalEnv) (d : AccessData) (u : Userdata) : CheckOutcome :=
  match client_data_get u d.client_index with
  | none => .res .stop u
  | some cd =>
    match u.policies.lookup cd.policy with
    | none => .crash
    | some ap =>
      match ap d.hook with
      | .allow => .res (rule_allow d) u
      | .block => .res (rule_block d) u
      | .check_owner => .res (rule_check_owner c d) u
      | .check_portal =>
        match rule_check_portal env d cd with
        | .assertion => .crash
        | .result r cd2 _ nf =>
          .res r { u with
                    clients := put_client u.clients d.client_index cd2
                    filters := u.filters ++ List.replicate nf d.client_index }

/-- filter_event with the unknown-client guard of the C function: the
event is blocked when the destination client has no entry; otherwise the
per-entry state machine runs and the updated entry is written back. -/
def filter_event_top (fire : PaAccessHook → AccessData → PaHookResult)
    (d : AccessData) (u : Userdata) : PaHookResult × Userdata :=
  match client_data_get u d.client_index with
  | none => (.stop, u)
  | some cd =>
    let (r, cd2) := filter_event fire d cd
    (r, { u with clients := put_client u.clients d.client_index cd2 })

/-- client_data_free releases the event list and the timer of the entry;
it does not touch the dbus connection, so any portal_response filter
registered with this entry as user_data stays installed.
client_data_remove drops the entry from the hashmap and runs
client_data_free on it. client_unlink_cb calls client_data_remove for
the unlinked client index. The broker state after unlink therefore keeps
`filters` unchanged. -/
def client_unlink_cb (u : Userdata) (clIndex : Nat) : Userdata :=
  { u with clients := u.clients.filter fun kv => kv.1 ≠ clIndex }

/-- The fields of pa_client read by the sandbox detector and policy
selection: the creds_valid flag, the trusted pid, and the lines of
/proc/pid/cgroup (`none` = the open failed). The proplist is only
logged. -/
structure PaClient where
  index : Nat
  creds_valid : Bool
  pid : Nat
  cgroup_lines : Option (List String)

/-- The strncmp of the detector, on character lists: does the line start
with the pattern. -/
def list_starts_with : List Char → List Char → Bool
  | _, [] => true
  | [], _ :: _ => false
  | c :: cs, p :: ps => if c = p then list_starts_with cs ps else false

/-- The strstr of the detector restricted to one split line (the C code
checks `p - current < n`, keeping the match within the current line):
does the pattern occur as a contiguous substring. -/
def list_has_sub : List Char → List Char → Bool
  | [], pat => list_starts_with [] pat
  | c :: cs, pat =>
    if list_starts_with (c :: cs) pat then true else list_has_sub cs pat

/-- client_is_sandboxed: clients without trusted credentials are not
sandboxed; an unreadable cgroup file means not sandboxed; otherwise the
file is split into lines and the client is sandboxed iff some line
starts with "1:name=systemd:" and contains "flatpak-" within the line. -/
def client_is_sandboxed (cl : PaClient) : Bool :=
  if cl.creds_valid = false then false
  else
    match cl.cgroup_lines with
    | none => false
    | some lines =>
      lines.any fun line =>
        list_starts_with line.data "1:name=systemd:".data
          && list_has_sub line.data "flatpak-".data

/-- find_policy_for_client as compiled (module-flatpak): after logging
the proplist the function executes `return u->default_policy;`
unconditionally; the client_is_sandboxed branch that follows in the
source is dead code and never runs. -/
def find_policy_for_client (u : Userdata) (_ : PaClient) : Nat :=
  u.default_policy

/-- Modelled from the spec: the policy selection rule of section 4.9,
which is also the dead branch below the early return in the source --
credentials trusted and sandbox detector reports confined gives the
portal policy, anything else the default policy. -/
def find_policy_for_client_spec (u : Userdata) (cl : PaClient) : Nat :=
  if client_is_sandboxed cl then u.portal_policy else u.default_policy

/-- The default policy built by module-flatpak pa__init: start from
access_policy_new(u, false) (all slots rule_block), then assign the
listed slots. Note CONNECT_RECORD is explicitly set to rule_allow at
line 671. -/
def flatpak_default_policy : Policy := fun h =>
  match h with
  | .get_sink_info => .allow
  | .get_source_info => .allow
  | .get_server_info => .allow
  | .get_module_info => .allow
  | .get_card_info => .allow
  | .stat => .allow
  | .get_sample_info => .allow
  | .play_sample => .allow
  | .connect_playback => .allow
  | .connect_record => .allow
  | .get_client_info => .check_owner
  | .kill_client => .check_owner
  | .get_sink_input_info => .check_owner
  | .move_sink_input => .check_owner
  | .set_sink_input_volume => .check_owner
  | .set_sink_input_mute => .check_owner
  | .kill_sink_input => .check_owner
  | .get_source_output_info => .check_owner
  | .move_source_output => .check_owner
  | .set_source_output_volume => .check_owner
  | .set_source_output_mute => .check_owner
  | .kill_source_output => .check_owner
  | _ => .block

/-- The portal policy built by module-flatpak pa__init: same allow and
owner-check slots, with the three media hooks set to rule_check_portal. -/
def flatpak_portal_policy : Policy := fun h =>
  match h with
  | .get_sink_info => .allow
  | .get_source_info => .allow
  | .get_server_info => .allow
  | .get_module_info => .allow
  | .get_card_info => .allow
  | .stat => .allow
  | .get_sample_info => .allow
  | .play_sample => .check_portal
  | .connect_playback => .check_portal
  | .connect_record => .check_portal
  | .get_client_info => .check_owner
  | .kill_client => .check_owner
  | .get_sink_input_info => .check_owner
  | .move_sink_input => .check_owner
  | .set_sink_input_volume => .check_owner
  | .set_sink_input_mute => .check_owner
  | .kill_sink_input => .check_owner
  | .get_source_output_info => .check_owner
  | .move_source_output => .check_owner
  | .set_source_output_volume => .check_owner
  | .set_source_output_mute => .check_owner
  | .kill_source_output => .check_owner
  | _ => .block

/-- The default policy built by module-access pa__init: identical to
the module-flatpak default table except that no assignment touches the
CONNECT_RECORD slot, which therefore stays at the rule_block fill of
access_policy_new(u, false). -/
def access_default_policy : Policy := fun h =>
  match h with
  | .get_sink_info => .allow
  | .get_source_info => .allow
  | .get_server_info => .allow
  | .get_module_info => .allow
  | .get_card_info => .allow
  | .stat => .allow
  | .get_sample_info => .allow
  | .play_sample => .allow
  | .connect_playback => .allow
  | .get_client_info => .check_owner
  | .kill_client => .check_owner
  | .get_sink_input_info => .check_owner
  | .move_sink_input => .check_owner
  | .set_sink_input_volume => .check_owner
  | .set_sink_input_mute => .check_owner
  | .kill_sink_input => .check_owner
  | .get_source_output_info => .check_owner
  | .move_source_output => .check_owner
  | .set_source_output_volume => .check_owner
  | .set_source_output_mute => .check_owner
  | .kill_source_output => .check_owner
  | _ => .block

/-- The broker state right after module-flatpak pa__init: the idxset
hands out handle 0 to the default policy and handle 1 to the portal
policy; no clients yet, no filters. -/
def flatpak_init_userdata : Userdata :=
  { policies := [(0, flatpak_default_policy), (1, flatpak_portal_policy)]
    default_policy := 0
    portal_policy := 1
    clients := []
    filters := [] }

/-- The broker state right after module-access pa__init: only the
default policy, handle 0. The portal_policy field is unused by
module-access (its userdata has no such member); it is set to the
default handle here. -/
def access_init_userdata : Userdata :=
  { policies := [(0, access_default_policy)]
    default_policy := 0
    portal_policy := 0
    clients := []
    filters := [] }

/-! Helper lemmas about the seen-object list. -/

/-- Multiplicity of a (facility, object_index) pair in a seen-object
list. -/
def seen_count : List (Facility × Nat) → Facility × Nat → Nat
  | [], _ => 0
  | x :: xs, p => (if x = p then 1 else 0) + seen_count xs p

theorem find_event_list_iff_count (l : List (Facility × Nat)) (f : Facility) (i : Nat) :
    find_event_list l f i = true ↔ 0 < seen_count l (f, i) := by
  induction l with
  | nil => simp [find_event_list, seen_count]
  | cons x xs ih =>
    simp only [find_event_list, seen_count]
    by_cases hx : x.1 = f ∧ x.2 = i
    · have hxp : x = (f, i) := by
        cases x; simp_all
      simp [hx, hxp]
    · have hxp : x ≠ (f, i) := by
        intro h
        apply hx
        cases x
        simp_all
      simp [hx, hxp, ih]

theorem remove_event_list_isSome (l : List (Facility × Nat)) (f : Facility) (i : Nat) :
    (remove_event_list l f i).isSome = find_event_list l f i := by
  induction l with
  | nil => simp [remove_event_list, find_event_list]
  | cons x xs ih =>
    simp only [remove_event_list, find_event_list]
    by_cases hx : x.1 = f ∧ x.2 = i
    · simp [hx]
    · simp only [hx, if_false]
      rw [← ih]
      cases remove_event_list xs f i <;> simp

theorem remove_event_list_count (l : List (Facility × Nat)) (f : Facility) (i : Nat)
    (ys : List (Facility × Nat)) (h : remove_event_list l f i = some ys) (p : Facility × Nat) :
    seen_count ys p + (if p = (f, i) then 1 else 0) = seen_count l p := by
  induction l generalizing ys with
  | nil => simp [remove_event_list] at h
  | cons x xs ih =>
    simp only [remove_event_list] at h
    by_cases hx : x.1 = f ∧ x.2 = i
    · simp only [hx, if_true] at h
      cases h
      have hxp : x = (f, i) := by
        cases x; simp_all
      by_cases hp : p = (f, i)
      · simp only [seen_count, hxp, hp, if_pos rfl]
        omega
      · simp only [seen_count, hp, if_false]
        have : x ≠ p := by rw [hxp]; exact fun hh => hp hh.symm
        simp [this]
    · simp only [hx, if_false] at h
      cases hrec : remove_event_list xs f i with
      | none => rw [hrec] at h; cases h
      | some ys0 =>
        rw [hrec] at h
        cases h
        simp only [seen_count]
        rw [← ih ys0 hrec]
        omega

/-! Shared concrete sample data for concrete-input theorems. -/

/-- An inner decision engine that grants every visibility check. -/
def fireOK : PaAccessHook → AccessData → PaHookResult := fun _ _ => .ok

/-- An event word whose masked values hit no case of interest. -/
def evNone : EvWord := ⟨.other, .other⟩

/-- A core with empty stream registries. -/
def core0 : Core := ⟨[], []⟩

/-- A confined client: trusted credentials and a cgroup file whose
systemd controller line names a flatpak scope. -/
def sandboxedClient : PaClient :=
  { index := 7
    creds_valid := true
    pid := 1234
    cgroup_lines := some ["1:name=systemd:/user.slice/flatpak-org.example.App-1.scope"] }

/-- C1. The fall-through in module-flatpak find_policy_for_client: the
function returns the default policy before the sandbox branch can run,
so even a confined client with valid credentials (for which
client_is_sandboxed reports true and the spec selects the portal
policy) is bound to the default policy. The unreachable branch, modelled
by find_policy_for_client_spec, would have returned the portal policy. -/
theorem find_policy_ignores_sandbox :
    client_is_sandboxed sandboxedClient = true
    ∧ find_policy_for_client flatpak_init_userdata sandboxedClient
        = flatpak_init_userdata.default_policy
    ∧ flatpak_init_userdata.default_policy ≠ flatpak_init_userdata.portal_policy
    ∧ find_policy_for_client_spec flatpak_init_userdata sandboxedClient
        = flatpak_init_userdata.portal_policy := by
  refine ⟨?_, rfl, by decide, ?_⟩
  · decide
  · decide

/-- C2. The event filter behaves exactly as specified, for every known
client entry, every event, and every decision engine: a REMOVE for a
pair in the seen set removes it (first matching item) and returns OK; a
REMOVE for an unseen pair returns STOP; a CHANGE for a seen pair returns
OK; a CHANGE for an unseen pair and every NEW build the derived request
with the facility get-info hook (STOP when that mapping is nil), fire it
through the engine, and on OK insert the pair and return OK, otherwise
STOP; any other event type returns STOP. -/
theorem filter_event_matches_spec (fire : PaAccessHook → AccessData → PaHookResult)
    (d : AccessData) (cd : ClientData) :
    (d.event.etype = .remove → find_event cd d.event.facility d.object_index = true →
      filter_event fire d cd
        = (.ok, (remove_event cd d.event.facility d.object_index).2))
    ∧ (d.event.etype = .remove → find_event cd d.event.facility d.object_index = false →
      filter_event fire d cd = (.stop, cd))
    ∧ (d.event.etype = .change → find_event cd d.event.facility d.object_index = true →
      filter_event fire d cd = (.ok, cd))
    ∧ (∀ h, (d.event.etype = .new
          ∨ (d.event.etype = .change
             ∧ find_event cd d.event.facility d.object_index = false)) →
      event_hook d.event.facility = some h →
      filter_event fire d cd
        = (if fire h { d with hook := h } = .ok
           then (.ok, add_event cd d.event.facility d.object_index)
           else (.stop, cd)))
    ∧ ((d.event.etype = .new
          ∨ (d.event.etype = .change
             ∧ find_event cd d.event.facility d.object_index = false)) →
      event_hook d.event.facility = none →
      filter_event fire d cd = (.stop, cd))
    ∧ (d.event.etype = .other → filter_event fire d cd = (.stop, cd)) := by
  have hrem := remove_event_list_isSome cd.events d.event.facility d.object_index
  refine ⟨?_, ?_, ?_, ?_, ?_, ?_⟩
  · intro ht hf
    rw [show find_event cd d.event.facility d.object_index
          = find_event_list cd.events d.event.facility d.object_index from rfl] at hf
    rw [hf] at hrem
    simp only [filter_event, ht, remove_event]
    cases hr : remove_event_list cd.events d.event.facility d.object_index with
    | none => rw [hr] at hrem; simp at hrem
    | some ys => simp
  · intro ht hf
    rw [show find_event cd d.event.facility d.object_index
          = find_event_list cd.events d.event.facility d.object_index from rfl] at hf
    rw [hf] at hrem
    simp only [filter_event, ht, remove_event]
    cases hr : remove_event_list cd.events d.event.facility d.object_index with
    | none => simp
    | some ys => rw [hr] at hrem; simp at hrem
  · intro ht hf
    simp [filter_event, ht, hf]
  · intro h hcase hhook
    rcases hcase with ht | ⟨ht, hf⟩
    · simp [filter_event, ht, hhook]
    · simp [filter_event, ht, hf, hhook]
  · intro hcase hhook
    rcases hcase with ht | ⟨ht, hf⟩
    · simp [filter_event, ht, hhook]
    · simp [filter_event, ht, hf, hhook]
  · intro ht
    simp [filter_event, ht]

/-- Closed witness for the event-filter case analysis: an unknown REMOVE
(no prior sighting) is blocked. -/
theorem filter_event_matches_spec_witness :
    filter_event fireOK ⟨5, 99, .filter_subscribe_event, ⟨.sink, .remove⟩⟩
      (client_data_new 5 0 100) = (.stop, client_data_new 5 0 100) :=
  (filter_event_matches_spec fireOK
    ⟨5, 99, .filter_subscribe_event, ⟨.sink, .remove⟩⟩
    (client_data_new 5 0 100)).2.1 rfl rfl

/-- A NEW subscription event for sink 2 aimed at client 5. -/
def dNewSink2 : AccessData := ⟨5, 2, .filter_subscribe_event, ⟨.sink, .new⟩⟩

/-- A REMOVE subscription event for sink 2 aimed at client 5. -/
def dRemSink2 : AccessData := ⟨5, 2, .filter_subscribe_event, ⟨.sink, .remove⟩⟩

/-- The client entry after two NEW events for the same pair (sink, 2)
both passed the visibility check: the NEW branch never consults the
seen set before inserting, so the pair is recorded twice. -/
def cdSeenTwice : ClientData :=
  (filter_event fireOK dNewSink2
    (filter_event fireOK dNewSink2 (client_data_new 5 0 100)).2).2

/-- C3, counterexample. After NEW(sink,2), NEW(sink,2) (both visibility
checks OK) the pair is present twice, refuting the each-pair-at-most-once
reading; and after a subsequent REMOVE(sink,2) that is delivered and
returns OK, the pair is still in the seen set, refuting the if-and-only-if
(a REMOVE returning OK should have left the pair absent). -/
theorem seen_set_duplicate_counterexample :
    cdSeenTwice.events = [(.sink, 2), (.sink, 2)]
    ∧ (filter_event fireOK dRemSink2 cdSeenTwice).1 = .ok
    ∧ find_event (filter_event fireOK dRemSink2 cdSeenTwice).2 .sink 2 = true :=
  ⟨rfl, rfl, rfl⟩

/-- C3, amended. The seen set is a multiset, not a set: one filter step
changes the multiplicity of a pair p by exactly +1 when the step is an
OK-returning NEW, or an OK-returning CHANGE for a pair that was unseen,
targeting p (a NEW for an already-seen pair adds a duplicate entry), by
exactly -1 when the step is an OK-returning REMOVE targeting p, and
leaves it unchanged otherwise; and a REMOVE returns OK precisely when
the multiplicity of its pair is positive. -/
theorem seen_multiset_step_law (fire : PaAccessHook → AccessData → PaHookResult)
    (d : AccessData) (cd : ClientData) (p : Facility × Nat) :
    (seen_count (filter_event fire d cd).2.events p
      + (if d.event.etype = .remove ∧ (filter_event fire d cd).1 = .ok
            ∧ p = (d.event.facility, d.object_index) then 1 else 0)
      = seen_count cd.events p
        + (if (filter_event fire d cd).1 = .ok ∧ p = (d.event.facility, d.object_index)
              ∧ (d.event.etype = .new
                 ∨ (d.event.etype = .change
                    ∧ find_event cd d.event.facility d.object_index = false))
           then 1 else 0))
    ∧ (d.event.etype = .remove →
        ((filter_event fire d cd).1 = .ok
          ↔ 0 < seen_count cd.events (d.event.facility, d.object_index))) := by
  constructor
  · cases hET : d.event.etype with
    | remove =>
      simp only [filter_event, hET, remove_event]
      cases hr : remove_event_list cd.events d.event.facility d.object_index with
      | none => simp
      | some ys =>
        have hcount := remove_event_list_count cd.events d.event.facility d.object_index ys hr p
        by_cases hp : p = (d.event.facility, d.object_index)
        · subst hp
          simp at hcount ⊢
          omega
        · simp [hp] at hcount ⊢
          omega
    | change =>
      simp only [filter_event, hET]
      cases hfe : find_event cd d.event.facility d.object_index with
      | true => simp [hfe]
      | false =>
        simp only [Bool.false_eq_true, if_false]
        cases hh : event_hook d.event.facility with
        | none => simp
        | some h =>
          by_cases hfire : fire h { d with hook := h } = .ok
          · by_cases hp : p = (d.event.facility, d.object_index)
            · simp [hfire, add_event, seen_count, hp]
              omega
            · have : (d.event.facility, d.object_index) ≠ p := fun hq => hp hq.symm
              simp [hfire, add_event, seen_count, hp, this]
          · simp [hfire]
    | new =>
      simp only [filter_event, hET]
      cases hh : event_hook d.event.facility with
      | none => simp
      | some h =>
        by_cases hfire : fire h { d with hook := h } = .ok
        · by_cases hp : p = (d.event.facility, d.object_index)
          · simp [hfire, add_event, seen_count, hp]
            omega
          · have : (d.event.facility, d.object_index) ≠ p := fun hq => hp hq.symm
            simp [hfire, add_event, seen_count, hp, this]
        · simp [hfire]
    | other => simp [filter_event, hET]
  · intro hET
    simp only [filter_event, hET, remove_event]
    have hsome := remove_event_list_isSome cd.events d.event.facility d.object_index
    cases hr : remove_event_list cd.events d.event.facility d.object_index with
    | none =>
      rw [hr] at hsome
      have hcount : ¬ 0 < seen_count cd.events (d.event.facility, d.object_index) := by
        rw [← find_event_list_iff_count, ← hsome]
        simp
      simp [hcount]
    | some ys =>
      rw [hr] at hsome
      have hcount : 0 < seen_count cd.events (d.event.facility, d.object_index) := by
        rw [← find_event_list_iff_count, ← hsome]
        simp
      simp [hcount]

/-- Closed witness for the multiset step law: applied to the duplicated
state, a REMOVE for (sink, 2) returns OK because the multiplicity is
positive. -/
theorem seen_multiset_step_law_witness :
    (filter_event fireOK dRemSink2 cdSeenTwice).1 = .ok :=
  ((seen_multiset_step_law fireOK dRemSink2 cdSeenTwice (.sink, 2)).2 rfl).mpr
    (by decide)

/-- A CONNECT_PLAYBACK request from client 5. -/
def rPlayback5 : AccessData := ⟨5, 0, .connect_playback, evNone⟩

/-- A PLAY_SAMPLE request from client 5. -/
def rSample5 : AccessData := ⟨5, 0, .play_sample, evNone⟩

/-- Client 5 on the portal policy with a portal arbitration in flight
for rPlayback5 (pending context saved, CANCEL already returned) and an
entirely unchecked cache. -/
def cdPending5 : ClientData :=
  { client_data_new 5 1 100 with access_data := some rPlayback5 }

/-- C4, counterexample. With the arbitration for rPlayback5 pending and
the play_sample cache slot unchecked, a second portal-check invocation
for the same client does not return STOP: it returns CANCEL, issues a
fresh AccessDevice call and overwrites the pending context with the new
request. -/
theorem portal_overlap_counterexample :
    (rule_check_portal portalEnvOk rSample5 cdPending5).resOf = some .cancel
    ∧ (rule_check_portal portalEnvOk rSample5 cdPending5).callsOf
        = some [⟨100, "speakers"⟩]
    ∧ ((rule_check_portal portalEnvOk rSample5 cdPending5).cdOf.map
        ClientData.access_data) = some (some rSample5)
    ∧ rSample5 ≠ rPlayback5 :=
  ⟨rfl, rfl, rfl, by decide⟩

/-- C4, amended. rule_check_portal has no overlap guard: whenever the
cache slot for the requested hook is unchecked (in particular while an
arbitration for the client is pending) and the bus steps succeed, the
invocation saves the new request as the pending context (overwriting any
previous one), issues a fresh AccessDevice call with the client pid and
the device tag of the hook, registers one more response filter, and
returns CANCEL. -/
theorem portal_overlap_behavior (env : PortalEnv) (d : AccessData) (cd : ClientData)
    (dev : String) (hpend : cd.access_data.isSome = true)
    (hunchecked : (cd.cached d.hook).checked = false)
    (hdev : deviceFor d.hook = some dev) (henv : env = portalEnvOk) :
    rule_check_portal env d cd
      = .result .cancel { cd with access_data := some d } [⟨cd.pid, dev⟩] 1 := by
  subst henv
  simp [rule_check_portal, hunchecked, hdev, portalEnvOk]

/-- Closed witness for the overlap behavior at the concrete pending
state. -/
theorem portal_overlap_behavior_witness :
    rule_check_portal portalEnvOk rSample5 cdPending5
      = .result .cancel { cdPending5 with access_data := some rSample5 }
          [⟨100, "speakers"⟩] 1 :=
  portal_overlap_behavior portalEnvOk rSample5 cdPending5 "speakers"
    rfl rfl rfl rfl

/-- Broker state with client 5 pending (arbitration in flight) and its
portal_response filter registered on the connection, as rule_check_portal
leaves things after returning CANCEL. -/
def uPending5 : Userdata :=
  { flatpak_init_userdata with
      clients := [(5, cdPending5)]
      filters := [5] }

/-- C5. Unlinking a client while a portal arbitration is pending does
not abandon the pending context the way the spec requires: client_unlink_cb
only removes and frees the client entry (client_data_free releases the
event list and the timer); no dbus_connection_remove_filter call exists
on this path, so the portal_response filter registered with the freed
entry as user_data stays installed while the entry it points at is gone.
A portal Response arriving later is therefore dispatched to the stale
filter (a use after free in the C code) instead of being dropped. -/
theorem unlink_leaves_filter_registered :
    (client_unlink_cb uPending5 5).filters = [5]
    ∧ client_data_get (client_unlink_cb uPending5 5) 5 = none
    ∧ cdPending5.access_data = some rPlayback5 :=
  ⟨rfl, rfl, rfl⟩

/-- C6. Completion then cache hit: when the arbitration pending for
request r is resolved by a Response signal carrying code, the cache slot
of r.hook is persisted to (checked, granted = (code = 0)); any later
portal-check invocation for the same client and the same hook returns
granted as OK and denied as STOP synchronously, with the client entry
unchanged, no AccessDevice call issued and no filter registered. -/
theorem portal_cache_idempotent (env : PortalEnv) (msg : DBusMsg) (cd : ClientData)
    (r d2 : AccessData) (code : Nat) (hpend : cd.access_data = some r)
    (hsig : msg.is_response_signal = true) (harg : msg.response_arg = some code)
    (hhook : d2.hook = r.hook) :
    ∃ cd2, portal_response msg cd = some (.handled cd2 (r, decide (code = 0)) 1)
      ∧ cd2.cached r.hook = ⟨true, decide (code = 0)⟩
      ∧ rule_check_portal env d2 cd2
          = .result (if code = 0 then .ok else .stop) cd2 [] 0 := by
  refine ⟨{ cd with cached := fun h =>
      if h = r.hook then ⟨true, decide (code = 0)⟩ else cd.cached h }, ?_, ?_, ?_⟩
  · simp [portal_response, hsig, hpend, harg]
  · simp
  · simp only [rule_check_portal, hhook, if_pos rfl]
    by_cases hc : code = 0 <;> simp [hc]

/-- Closed witness for the portal cache idempotence: after a granted
Response (code 0) for the pending rPlayback5, a repeated
CONNECT_PLAYBACK check is answered OK from the cache. -/
theorem portal_cache_idempotent_witness :
    ∃ cd2, portal_response ⟨true, some 0⟩ cdPending5
        = some (.handled cd2 (rPlayback5, decide ((0 : Nat) = 0)) 1)
      ∧ cd2.cached rPlayback5.hook = ⟨true, decide ((0 : Nat) = 0)⟩
      ∧ rule_check_portal portalEnvOk rPlayback5 cd2
          = .result (if (0 : Nat) = 0 then .ok else .stop) cd2 [] 0 :=
  portal_cache_idempotent portalEnvOk ⟨true, some 0⟩ cdPending5
    rPlayback5 rPlayback5 0 rfl rfl rfl rfl

/-- C7. The Response handler: for a matching Response signal while
request r is pending, the decision is granted exactly when the first
unsigned argument parses as 0 (a missing or unparsable argument leaves
the local response variable at 2, hence denied); the result is persisted
into the cache slot of the pending hook, every other slot is untouched,
the filter is removed and async_finish_cb is invoked once with the
pending request and that decision. -/
theorem portal_response_parses_and_persists (msg : DBusMsg) (cd : ClientData)
    (r : AccessData) (hpend : cd.access_data = some r)
    (hsig : msg.is_response_signal = true) :
    ∃ cd2, portal_response msg cd
        = some (.handled cd2 (r, decide (msg.response_arg = some 0)) 1)
      ∧ cd2.cached r.hook = ⟨true, decide (msg.response_arg = some 0)⟩
      ∧ (∀ h, h ≠ r.hook → cd2.cached h = cd.cached h)
      ∧ cd2.access_data = cd.access_data
      ∧ cd2.events = cd.events := by
  refine ⟨{ cd with cached := fun h =>
      if h = r.hook then ⟨true, decide (msg.response_arg = some 0)⟩
      else cd.cached h }, ?_, ?_, ?_, ?_, ?_⟩
  · cases harg : msg.response_arg with
    | none => simp [portal_response, hsig, hpend, harg]
    | some v =>
      have h2 : (decide (some v = some (0 : Nat))) = decide (v = 0) := by
        simp [decide_eq_decide]
      simp only [portal_response, hsig, if_pos rfl, hpend, harg, h2]
      simp
  · simp
  · intro h hh
    simp [hh]
  · rfl
  · rfl

/-- Closed witness for the Response handler: a parse failure (no UINT32
argument) persists denied and finishes with granted = false. -/
theorem portal_response_parses_witness :
    ∃ cd2, portal_response ⟨true, none⟩ cdPending5
        = some (.handled cd2 (rPlayback5,
            decide ((none : Option Nat) = some 0)) 1)
      ∧ cd2.cached rPlayback5.hook
          = ⟨true, decide ((none : Option Nat) = some 0)⟩
      ∧ (∀ h, h ≠ rPlayback5.hook → cd2.cached h = cdPending5.cached h)
      ∧ cd2.access_data = cdPending5.access_data
      ∧ cd2.events = cdPending5.events :=
  portal_response_parses_and_persists ⟨true, none⟩ cdPending5 rPlayback5 rfl rfl

/-- Module-flatpak broker state with client 7 bound to the default
policy (handle 0). -/
def uFlatpakClient7 : Userdata :=
  { flatpak_init_userdata with clients := [(7, client_data_new 7 0 100)] }

/-- A CONNECT_RECORD request from client 7. -/
def rRecord7 : AccessData := ⟨7, 0, .connect_record, evNone⟩

/-- C8, counterexample. In module-flatpak, pa__init explicitly assigns
rule_allow to the CONNECT_RECORD slot of the default policy (line 671),
so a CONNECT_RECORD request from a client bound to the default policy
returns OK, not STOP. -/
theorem connect_record_default_allow_counterexample :
    check_access core0 portalEnvOk rRecord7 uFlatpakClient7
      = .res .ok uFlatpakClient7
    ∧ flatpak_default_policy .connect_record = .allow :=
  ⟨rfl, rfl⟩

/-- C8, amended. The two modules differ on CONNECT_RECORD under the
default policy: in module-access no pa__init assignment touches the
slot, which stays at the rule_block fill, so any client bound to that
policy gets STOP; in module-flatpak the slot is explicitly set to
rule_allow, so the same request gets OK. -/
theorem connect_record_default_policies (c : Core) (env : PortalEnv)
    (d : AccessData) (u u2 : Userdata) (cd cd2 : ClientData)
    (hhook : d.hook = .connect_record)
    (hcd : client_data_get u d.client_index = some cd)
    (hpol : u.policies.lookup cd.policy = some access_default_policy)
    (hcd2 : client_data_get u2 d.client_index = some cd2)
    (hpol2 : u2.policies.lookup cd2.policy = some flatpak_default_policy) :
    check_access c env d u = .res .stop u
    ∧ check_access c env d u2 = .res .ok u2 := by
  constructor
  · simp [check_access, hcd, hpol, hhook, access_default_policy, rule_block]
  · simp [check_access, hcd2, hpol2, hhook, flatpak_default_policy, rule_allow]

/-- Closed witness for the CONNECT_RECORD difference, on the pa__init
states of the two modules with one client bound to each default
policy. -/
theorem connect_record_default_policies_witness :
    check_access core0 portalEnvOk rRecord7
        { access_init_userdata with clients := [(7, client_data_new 7 0 100)] }
      = .res .stop
        { access_init_userdata with clients := [(7, client_data_new 7 0 100)] }
    ∧ check_access core0 portalEnvOk rRecord7 uFlatpakClient7
      = .res .ok uFlatpakClient7 :=
  connect_record_default_policies core0 portalEnvOk rRecord7
    { access_init_userdata with clients := [(7, client_data_new 7 0 100)] }
    uFlatpakClient7 (client_data_new 7 0 100) (client_data_new 7 0 100)
    rfl rfl rfl rfl rfl

/-- C9. Fail closed on unknown clients: when the acting client index has
no registry entry, check_access returns STOP for every hook and leaves
the broker state untouched, and the subscribe-event filter likewise
blocks the event with no state change, for every inner engine. -/
theorem unknown_client_stops (c : Core) (env : PortalEnv) (d : AccessData)
    (u : Userdata) (hnone : client_data_get u d.client_index = none) :
    check_access c env d u = .res .stop u
    ∧ ∀ fire, filter_event_top fire d u = (.stop, u) := by
  constructor
  · simp [check_access, hnone]
  · intro fire
    simp [filter_event_top, hnone]

/-- Closed witness for the unknown-client rule: client 99 has no entry
in the freshly initialised broker. -/
theorem unknown_client_stops_witness :
    check_access core0 portalEnvOk ⟨99, 0, .get_sink_info, evNone⟩
        flatpak_init_userdata = .res .stop flatpak_init_userdata
    ∧ ∀ fire, filter_event_top fire ⟨99, 0, .get_sink_info, evNone⟩
        flatpak_init_userdata = (.stop, flatpak_init_userdata) :=
  unknown_client_stops core0 portalEnvOk ⟨99, 0, .get_sink_info, evNone⟩
    flatpak_init_userdata rfl

/-- Does the hook belong to the client group of the rule_check_owner
switch. -/
def hook_in_client_group : PaAccessHook → Bool
  | .get_client_info | .kill_client => true
  | _ => false

/-- Does the hook belong to the sink-input group of the rule_check_owner
switch. -/
def hook_in_sink_input_group : PaAccessHook → Bool
  | .get_sink_input_info | .move_sink_input | .set_sink_input_volume
  | .set_sink_input_mute | .kill_sink_input => true
  | _ => false

/-- Does the hook belong to the source-output group of the
rule_check_owner switch. -/
def hook_in_source_output_group : PaAccessHook → Bool
  | .get_source_output_info | .move_source_output | .set_source_output_volume
  | .set_source_output_mute | .kill_source_output => true
  | _ => false

/-- C10. The owner-check rule returns OK exactly when the computed owner
index equals the acting client index; the owner is PA_INVALID_INDEX for
every hook outside the three switch groups and for sink-input or
source-output hooks whose stream is absent or has no client
backreference; consequently a request whose client_index is
PA_INVALID_INDEX is granted OK in all those nobody-owns cases. -/
theorem rule_check_owner_grants_invalid_index (c : Core) (d : AccessData) :
    (rule_check_owner c d = .ok ↔ owner_idx c d = d.client_index)
    ∧ (hook_in_client_group d.hook = false →
        hook_in_sink_input_group d.hook = false →
        hook_in_source_output_group d.hook = false →
        owner_idx c d = PA_INVALID_INDEX)
    ∧ (hook_in_sink_input_group d.hook = true →
        (c.sink_inputs.lookup d.object_index = none
          ∨ c.sink_inputs.lookup d.object_index = some none) →
        owner_idx c d = PA_INVALID_INDEX)
    ∧ (hook_in_source_output_group d.hook = true →
        (c.source_outputs.lookup d.object_index = none
          ∨ c.source_outputs.lookup d.object_index = some none) →
        owner_idx c d = PA_INVALID_INDEX)
    ∧ (owner_idx c d = PA_INVALID_INDEX → d.client_index = PA_INVALID_INDEX →
        rule_check_owner c d = .ok) := by
  refine ⟨?_, ?_, ?_, ?_, ?_⟩
  · unfold rule_check_owner
    constructor
    · intro h
      by_contra hne
      simp [hne] at h
    · intro h
      simp [h]
  · intro h1 h2 h3
    cases hh : d.hook <;> simp_all [hook_in_client_group, hook_in_sink_input_group,
      hook_in_source_output_group, owner_idx]
  · intro h1 h2
    have hmatch : owner_idx c d =
        (match c.sink_inputs.lookup d.object_index with
          | some (some ci) => ci
          | some none => PA_INVALID_INDEX
          | none => PA_INVALID_INDEX) := by
      clear h2
      cases hh : d.hook <;> simp_all [hook_in_sink_input_group, owner_idx]
    rw [hmatch]
    rcases h2 with h2 | h2 <;> rw [h2]
  · intro h1 h2
    have hmatch : owner_idx c d =
        (match c.source_outputs.lookup d.object_index with
          | some (some ci) => ci
          | some none => PA_INVALID_INDEX
          | none => PA_INVALID_INDEX) := by
      clear h2
      cases hh : d.hook <;> simp_all [hook_in_source_output_group, owner_idx]
    rw [hmatch]
    rcases h2 with h2 | h2 <;> rw [h2]
  · intro howner hclient
    simp [rule_check_owner, howner, hclient]

/-- Closed witness for the owner-check rule: a CONNECT_PLAYBACK request
(outside all owner groups) with client_index = PA_INVALID_INDEX is
granted OK. -/
theorem rule_check_owner_grants_invalid_index_witness :
    owner_idx core0 ⟨PA_INVALID_INDEX, 3, .connect_playback, evNone⟩
        = PA_INVALID_INDEX
    ∧ rule_check_owner core0 ⟨PA_INVALID_INDEX, 3, .connect_playback, evNone⟩
        = .ok := by
  have h := rule_check_owner_grants_invalid_index core0
    ⟨PA_INVALID_INDEX, 3, .connect_playback, evNone⟩
  exact ⟨h.2.1 rfl rfl rfl, h.2.2.2.2 (h.2.1 rfl rfl rfl) rfl⟩
